import Mathlib

/-!
Verification of the KubeDebugSess controller and attach proxy.

This file gives a shallow embedding, in Lean 4, of the pure decision logic
of the KubeDebugSess repository: the container-status reason classifier,
the per-phase session reconcilers, the ephemeral-container inject/cleanup
list operations, the attach proxy's authorization decision, and the
WebSocket/attach channel framing.  I/O (Kubernetes API calls, the random
source, environment variables, timestamps) is abstracted into an explicit
environment record that each reconcile step consumes; every status write the
Go code persists via Status().Update is reflected in the returned session
value, and code paths that return without persisting leave the session
unchanged.  Strings are modelled byte-for-byte where a claim quotes them
(both sides are ASCII, so Lean character operations coincide with Go byte
operations).
-/

namespace KubeDebugSess

/-- Session lifecycle phases, from api/v1alpha1/debugsession_types.go.
`unset` stands for the empty-string phase of a freshly created session. -/
inductive SessionPhase where
  | unset
  | pending
  | injecting
  | active
  | retrying
  | terminating
  | completed
  | failed
  deriving DecidableEq

/-- ReasonAction, from internal/controller/session_phases/reason_handler.go. -/
inductive ReasonAction where
  | wait
  | retry
  | fail
  | succeed
  deriving DecidableEq

/-- The current sub-state of a container, mirroring corev1.ContainerState:
each of the three pointers may independently be set, and the classifier
checks them in the order Running, Waiting, Terminated. -/
structure ContainerState where
  running : Bool
  waiting : Option String
  terminated : Option String
  deriving DecidableEq

/-- corev1.ContainerStatus restricted to the fields the repository reads. -/
structure ContainerStatus where
  name : String
  state : ContainerState
  deriving DecidableEq

/-- corev1.Capabilities restricted to the fields the repository sets. -/
structure Capabilities where
  add : List String
  drop : List String
  deriving DecidableEq

/-- corev1.SecurityContext restricted to the fields buildSecurityContext sets
(all of them pointers in Go, hence Option here). -/
structure SecurityContext where
  runAsNonRoot : Option Bool
  runAsUser : Option Int
  runAsGroup : Option Int
  privileged : Option Bool
  allowPrivilegeEscalation : Option Bool
  readOnlyRootFilesystem : Option Bool
  capabilities : Option Capabilities
  deriving DecidableEq

/-- The capabilities override block of DebugSecurityContext, reconstructed
from the fields buildSecurityContext reads (the type declaration itself is
not among the provided sources). -/
structure DebugCapabilities where
  add : Option (List String)
  drop : Option (List String)
  deriving DecidableEq

/-- DebugSecurityContext, reconstructed from the fields buildSecurityContext
reads. -/
structure DebugSecurityContext where
  runAsNonRoot : Option Bool
  runAsUser : Option Int
  runAsGroup : Option Int
  privileged : Option Bool
  allowPrivilegeEscalation : Option Bool
  readOnlyRootFilesystem : Option Bool
  capabilities : Option DebugCapabilities
  deriving DecidableEq

/-- corev1.EphemeralContainer restricted to the fields injectEphemeralContainer
sets. -/
structure EphemeralContainer where
  name : String
  image : String
  command : List String
  args : List String
  stdin : Bool
  tty : Bool
  env : List (String × String)
  targetContainerName : String
  securityContext : SecurityContext
  deriving DecidableEq

/-- A target pod, restricted to the fields the reconcilers read.  `phase` is
the pod phase string ("Running", "Succeeded", ...); `containers` is the list
of regular container names. -/
structure Pod where
  name : String
  ns : String
  phase : String
  shareProcessNamespace : Bool
  containers : List String
  ephemeralContainers : List EphemeralContainer
  ephemeralContainerStatuses : List ContainerStatus
  deriving DecidableEq

/-- DebugSessionSpec from api/v1alpha1/debugsession_types.go. -/
structure DebugSessionSpec where
  targetPodName : String
  targetContainerName : String
  targetNamespace : String
  debuggerImage : String
  ttl : Int
  maxRetryCount : Int
  debugSecurity : Option DebugSecurityContext
  deriving DecidableEq

/-- DebugSessionStatus from api/v1alpha1/debugsession_types.go (conditions and
startTime omitted: no reconciler in the provided sources writes them).
Timestamps are abstract Nat instants. -/
structure DebugSessionStatus where
  phase : SessionPhase
  message : String
  terminationTime : Option Nat
  debuggingContainerName : String
  readyForAttach : Bool
  oneTimeToken : String
  retryCount : Nat
  deriving DecidableEq

/-- A DebugSession resource: object metadata (namespace, name, uid) plus spec
and status. -/
structure DebugSession where
  ns : String
  name : String
  uid : String
  spec : DebugSessionSpec
  status : DebugSessionStatus
  deriving DecidableEq

/-! ## Reason classifier (reason_handler.go) -/

/-- waitingReasonMap from reason_handler.go: the Go map literal rendered as a
lookup on its (distinct) keys. -/
def waitingReasonMap (r : String) : Option ReasonAction :=
  if r = "ContainerCreating" then some ReasonAction.wait
  else if r = "ImagePullBackOff" then some ReasonAction.retry
  else if r = "RegistryUnavailable" then some ReasonAction.retry
  else if r = "CrashLoopBackOff" then some ReasonAction.retry
  else if r = "CreateContainerError" then some ReasonAction.retry
  else if r = "RunContainerError" then some ReasonAction.retry
  else if r = "NetworkPluginNotReady" then some ReasonAction.retry
  else if r = "ErrImagePull" then some ReasonAction.fail
  else if r = "InvalidImageName" then some ReasonAction.fail
  else if r = "CreateContainerConfigError" then some ReasonAction.fail
  else none

/-- terminatedReasonMap from reason_handler.go. -/
def terminatedReasonMap (r : String) : Option ReasonAction :=
  if r = "Completed" then some ReasonAction.succeed
  else if r = "Error" then some ReasonAction.fail
  else if r = "OOMKilled" then some ReasonAction.fail
  else if r = "ContainerCannotRun" then some ReasonAction.fail
  else if r = "DeadlineExceeded" then some ReasonAction.fail
  else none

/-- AnalyzeContainerStatus from reason_handler.go. -/
def AnalyzeContainerStatus (status : ContainerStatus) : ReasonAction × String :=
  if status.state.running then
    (ReasonAction.wait, "Session is running.")
  else
    match status.state.waiting with
    | some reason =>
      match waitingReasonMap reason with
      | some action => (action, "Container is waiting. Reason: " ++ reason)
      | none =>
        (ReasonAction.fail,
          "Unknown waiting reason \x27" ++ reason ++ "\x27. Attempting to retry.")
    | none =>
      match status.state.terminated with
      | some reason =>
        match terminatedReasonMap reason with
        | some action => (action, "Container terminated. Reason: " ++ reason)
        | none =>
          (ReasonAction.fail,
            "Container terminated with unknown reason \x27" ++ reason ++ "\x27.")
      | none => (ReasonAction.wait, "Container status is not yet determined.")

/-! ## Shared helpers (phase_reconciler.go and reconciler helpers) -/

/-- UpdateSessionStatus from phase_reconciler.go: sets the phase and message
and persists the (whole) status subresource. -/
def UpdateSessionStatus (s : DebugSession) (newPhase : SessionPhase)
    (message : String) : DebugSession :=
  { s with status := { s.status with phase := newPhase, message := message } }

/-- The lowercase hex digits used by encoding/hex. -/
def hexDigits : List Char := "0123456789abcdef".data

/-- A single hex digit for a nibble value. -/
def hexDigit (n : Nat) : Char := hexDigits.getD n '0'

/-- hex.EncodeToString over a byte list (high nibble first, lowercase),
as used by generateSecureToken in injecting_reconciler.go. -/
def hexEncode : List Nat → String
  | [] => ""
  | b :: rest => String.mk [hexDigit (b / 16), hexDigit (b % 16)] ++ hexEncode rest

/-- generateSecureToken from injecting_reconciler.go: reads `length` random
bytes from crypto/rand and hex-encodes them.  The random source is abstracted
into the explicit `bytes` argument supplied by the reconcile environment. -/
def generateSecureToken (bytes : List Nat) : String := hexEncode bytes

/-- buildSecurityContext from injecting_reconciler.go: a safe non-root default
merged field-wise with the user-supplied overrides. -/
def buildSecurityContext (sec : Option DebugSecurityContext) : SecurityContext :=
  let sc : SecurityContext :=
    { runAsNonRoot := some true
      runAsUser := some 1000
      runAsGroup := some 1000
      privileged := some false
      allowPrivilegeEscalation := some false
      readOnlyRootFilesystem := some true
      capabilities := some { add := [], drop := ["ALL"] } }
  match sec with
  | none => sc
  | some o =>
    { runAsNonRoot := match o.runAsNonRoot with | some v => some v | none => sc.runAsNonRoot
      runAsUser := match o.runAsUser with | some v => some v | none => sc.runAsUser
      runAsGroup := match o.runAsGroup with | some v => some v | none => sc.runAsGroup
      privileged := match o.privileged with | some v => some v | none => sc.privileged
      allowPrivilegeEscalation :=
        match o.allowPrivilegeEscalation with
        | some v => some v | none => sc.allowPrivilegeEscalation
      readOnlyRootFilesystem :=
        match o.readOnlyRootFilesystem with
        | some v => some v | none => sc.readOnlyRootFilesystem
      capabilities :=
        match o.capabilities with
        | some c => some { add := c.add.getD [], drop := c.drop.getD [] }
        | none => sc.capabilities }

/-- The in-container bootstrap script of the injected debugger (the raw Go
string literal of injectEphemeralContainer). -/
def debugScript : String :=
  "\n    trap \x27exit 0\x27 EXIT TERM INT\n    ( sleep $\x7bTTL:-300\x7d && exit 0 ) &\n    exec /bin/sh -i\n\t"

/-- The ephemeral container built by injectEphemeralContainer in
injecting_reconciler.go. -/
def mkDebugEphemeralContainer (s : DebugSession) : EphemeralContainer :=
  { name := "debugger-" ++ s.uid
    image := s.spec.debuggerImage
    command := ["/bin/sh"]
    args := ["-c", debugScript]
    stdin := true
    tty := true
    env := [("TTL", toString s.spec.ttl)]
    targetContainerName := s.spec.targetContainerName
    securityContext := buildSecurityContext s.spec.debugSecurity }

/-- The pod mutation performed by injectEphemeralContainer:
`pod.Spec.EphemeralContainers = append(pod.Spec.EphemeralContainers, ec)`. -/
def injectEphemeralContainers (s : DebugSession) (pod : Pod) : Pod :=
  { pod with ephemeralContainers := pod.ephemeralContainers ++ [mkDebugEphemeralContainer s] }

/-- buildConnectionString from injecting_reconciler.go.  The BASTION_HOST
environment variable is passed explicitly as `bastionEnv`. -/
def buildConnectionString (s : DebugSession) (nodeIP nodePort bastionEnv : String) : String :=
  let bastionHost := if bastionEnv = "" then "your-user@bastion.example.com" else bastionEnv
  let localPort := "8080"
  "Session is ready. Open TWO terminals and follow the steps:\n\n" ++
  "--- Terminal 1: Create a secure tunnel ---\n" ++
  "1. Run this command and leave it running. It forwards local port " ++ localPort ++
  " to the debug proxy via the bastion host.\n   ssh -L " ++ localPort ++ ":" ++ nodeIP ++
  ":" ++ nodePort ++ " " ++ bastionHost ++ "\n\n" ++
  "--- Terminal 2: Connect to the debug session ---\n" ++
  "2. Once the tunnel is active, run this command in a new terminal. It uses the one-time token for authorization.\n" ++
  "   websocat --no-line --binary --header=\"Authorization: Bearer " ++
  s.status.oneTimeToken ++ "\" \"ws://localhost:" ++ localPort ++ "/attach?ns=" ++
  s.spec.targetNamespace ++ "&pod=" ++ s.spec.targetPodName ++ "&container=" ++
  s.status.debuggingContainerName ++ "\""

/-- The `for _, cs := range pod.Status.EphemeralContainerStatuses` lookup used
by the Active and Retrying reconcilers: the first status entry whose name
matches. -/
def findContainerStatus (nm : String) : List ContainerStatus → Option ContainerStatus
  | [] => none
  | cs :: rest => if cs.name = nm then some cs else findContainerStatus nm rest

/-- findContainerInPod from the Pending reconciler: whether a regular
container of the given name exists in the pod. -/
def findContainerInPod (containers : List String) (nm : String) : Bool :=
  match containers with
  | [] => false
  | c :: rest => if c = nm then true else findContainerInPod rest nm

/-! ## Reconcile environment

Everything a single reconcile invocation obtains from the outside world:
the target pod (or its absence), whether the target namespace exists, the
proxy service node info (or the lookup error message), the bytes produced by
the random source, the BASTION_HOST environment variable, whether the
ephemeral-containers subresource update fails (with its error message), and
the current time. -/

structure ReconcileEnv where
  nsExists : Bool
  podFound : Option Pod
  proxyInfo : Except String (String × String)
  randBytes : List Nat
  bastionEnv : String
  ecUpdateErr : Option String
  now : Nat

/-- The result a reconciler returns to the dispatcher (ctrl.Result): either
nothing or a requeue after the given number of seconds. -/
inductive ReconcileOutcome where
  | done
  | requeueAfter (seconds : Nat)
  deriving DecidableEq

/-- The outcome of validatePrerequisites in the Pending reconciler: success,
a transient RequeueError, or a terminal validation error. -/
inductive ValidationResult where
  | ok
  | requeue (reason : String) (seconds : Nat)
  | fail (msg : String)
  deriving DecidableEq

/-- validatePrerequisites from the Pending reconciler: namespace exists, pod
exists, pod Running (Succeeded/Failed are terminal, other phases requeue),
container name defaultable and present. -/
def validatePrerequisites (s : DebugSession) (env : ReconcileEnv) : ValidationResult :=
  let targetNs := if s.spec.targetNamespace = "" then s.ns else s.spec.targetNamespace
  if ¬ env.nsExists then
    ValidationResult.fail ("target namespace \x27" ++ targetNs ++ "\x27 not found")
  else
    match env.podFound with
    | none =>
      ValidationResult.fail ("target pod \x27" ++ s.spec.targetPodName ++ "\x27 not found")
    | some pod =>
      if pod.phase ≠ "Running" then
        if pod.phase = "Succeeded" ∨ pod.phase = "Failed" then
          ValidationResult.fail ("target pod is not running (current phase: " ++ pod.phase ++ ")")
        else
          ValidationResult.requeue
            ("pod is not running yet (current phase: " ++ pod.phase ++ ")") 30
      else
        let cname? :=
          if s.spec.targetContainerName ≠ "" then some s.spec.targetContainerName
          else pod.containers.head?
        match cname? with
        | none => ValidationResult.fail "cannot default container name, pod has no containers"
        | some cname =>
          if findContainerInPod pod.containers cname then ValidationResult.ok
          else ValidationResult.fail ("target container \x27" ++ cname ++ "\x27 not found in pod")

/-- The Pending reconciler (PendingReconciler.Reconcile). -/
def pendingReconcile (s : DebugSession) (env : ReconcileEnv) :
    DebugSession × ReconcileOutcome :=
  if s.status.phase = SessionPhase.unset then
    (UpdateSessionStatus s SessionPhase.pending "DebugSession created.", ReconcileOutcome.done)
  else
    match validatePrerequisites s env with
    | ValidationResult.requeue _ secs => (s, ReconcileOutcome.requeueAfter secs)
    | ValidationResult.fail msg =>
      (UpdateSessionStatus s SessionPhase.failed msg, ReconcileOutcome.done)
    | ValidationResult.ok =>
      (UpdateSessionStatus s SessionPhase.injecting "Prerequisites validated successfully.",
        ReconcileOutcome.done)

/-- The Injecting reconciler (InjectingReconciler.Reconcile): re-reads the
pod, defaults the container name, checks shareProcessNamespace and the proxy
service info, persists the generated token, injects the ephemeral container
and transitions to Active with the connection instructions. -/
def injectingReconcile (s : DebugSession) (env : ReconcileEnv) :
    DebugSession × ReconcileOutcome :=
  match env.podFound with
  | none =>
    (UpdateSessionStatus s SessionPhase.failed "Failed to find Target Pod",
      ReconcileOutcome.done)
  | some pod =>
    let cname? :=
      if s.spec.targetContainerName ≠ "" then some s.spec.targetContainerName
      else pod.containers.head?
    match cname? with
    | none =>
      (UpdateSessionStatus s SessionPhase.failed "Failed to find Target Container",
        ReconcileOutcome.done)
    | some _ =>
      if ¬ pod.shareProcessNamespace then
        (UpdateSessionStatus s SessionPhase.failed
          "Inject Failed: pod.Spec.ShareProcessNamespace is false", ReconcileOutcome.done)
      else
        match env.proxyInfo with
        | Except.error e =>
          (UpdateSessionStatus s SessionPhase.failed ("Inject Failed: " ++ e),
            ReconcileOutcome.done)
        | Except.ok (nodeIP, nodePort) =>
          let s1 := { s with status :=
            { s.status with oneTimeToken := generateSecureToken env.randBytes } }
          match env.ecUpdateErr with
          | some e =>
            (UpdateSessionStatus s1 SessionPhase.failed
              ("Inject Failed: failed to update ephemeral containers: " ++ e),
              ReconcileOutcome.done)
          | none =>
            let s2 := { s1 with status :=
              { s1.status with debuggingContainerName := "debugger-" ++ s.uid } }
            (UpdateSessionStatus s2 SessionPhase.active
              (buildConnectionString s2 nodeIP nodePort env.bastionEnv),
              ReconcileOutcome.done)

/-- The Active reconciler (ActiveReconciler.Reconcile in
reconcilers/active_reconciler.go): marks the session ready when the debugger
is Running, otherwise classifies the container status and dispatches the
matching handler.  Return points without a Status().Update leave the
persisted session unchanged. -/
def activeReconcile (s : DebugSession) (env : ReconcileEnv) :
    DebugSession × ReconcileOutcome :=
  match env.podFound with
  | none =>
    (UpdateSessionStatus s SessionPhase.failed "Target pod not found.", ReconcileOutcome.done)
  | some pod =>
    let dName := "debugger-" ++ s.uid
    let s1 := { s with status := { s.status with debuggingContainerName := dName } }
    match findContainerStatus dName pod.ephemeralContainerStatuses with
    | none => (s, ReconcileOutcome.requeueAfter 5)
    | some cs =>
      if cs.state.running ∧ ¬ s.status.readyForAttach then
        ({ s1 with status := { s1.status with readyForAttach := true } },
          ReconcileOutcome.done)
      else
        let am := AnalyzeContainerStatus cs
        let s2 :=
          if am.1 ≠ ReasonAction.wait then
            { s1 with status := { s1.status with readyForAttach := false } }
          else s1
        match am.1 with
        | ReasonAction.retry =>
          (UpdateSessionStatus
            { s2 with status := { s2.status with retryCount := 1 } }
            SessionPhase.retrying am.2, ReconcileOutcome.done)
        | ReasonAction.fail =>
          (UpdateSessionStatus s2 SessionPhase.failed am.2, ReconcileOutcome.done)
        | ReasonAction.succeed =>
          (UpdateSessionStatus s2 SessionPhase.terminating am.2, ReconcileOutcome.done)
        | ReasonAction.wait => (s, ReconcileOutcome.done)

/-- RetryingReconciler.handleRetry: fail once the retry budget is exhausted,
otherwise increment the count and requeue after an exponential backoff of
5s * 2^(retryCount-1), capped at one minute. -/
def retryingHandleRetry (s : DebugSession) (message : String) :
    DebugSession × ReconcileOutcome :=
  if (s.status.retryCount : Int) ≥ s.spec.maxRetryCount then
    (UpdateSessionStatus s SessionPhase.failed "Failed after max retries.",
      ReconcileOutcome.done)
  else
    let rc := s.status.retryCount + 1
    let raw := 5 * 2 ^ (rc - 1)
    let waitSecs := if raw > 60 then 60 else raw
    ({ s with status := { s.status with
        retryCount := rc,
        message := "Retrying... (" ++ toString rc ++ "/" ++ toString s.spec.maxRetryCount
          ++ "), Reason: " ++ message } },
      ReconcileOutcome.requeueAfter waitSecs)

/-- The Retrying reconciler (RetryingReconciler.Reconcile): re-check the pod,
re-classify the debugger status; Wait and Succeed resolve back to Active with
the count reset, Fail fails, Retry backs off, a vanished container fails. -/
def retryingReconcile (s : DebugSession) (env : ReconcileEnv) :
    DebugSession × ReconcileOutcome :=
  match env.podFound with
  | none =>
    (UpdateSessionStatus s SessionPhase.failed "Target pod not found during retry.",
      ReconcileOutcome.done)
  | some pod =>
    match findContainerStatus ("debugger-" ++ s.uid) pod.ephemeralContainerStatuses with
    | none =>
      (UpdateSessionStatus s SessionPhase.failed
        "Debugger container disappeared during retry.", ReconcileOutcome.done)
    | some cs =>
      let am := AnalyzeContainerStatus cs
      match am.1 with
      | ReasonAction.wait =>
        (UpdateSessionStatus
          { s with status := { s.status with retryCount := 0 } }
          SessionPhase.active "Session is now active.", ReconcileOutcome.done)
      | ReasonAction.succeed =>
        (UpdateSessionStatus
          { s with status := { s.status with retryCount := 0 } }
          SessionPhase.active "Session is now active.", ReconcileOutcome.done)
      | ReasonAction.fail =>
        (UpdateSessionStatus s SessionPhase.failed am.2, ReconcileOutcome.done)
      | ReasonAction.retry => retryingHandleRetry s am.2

/-- The index search of TerminatingReconciler.cleanupEphemeralContainer:
`for i, ec := range pod.Spec.EphemeralContainers` with break on name match. -/
def findDebuggerIdx (dn : String) : List EphemeralContainer → Option Nat
  | [] => none
  | ec :: rest =>
    if ec.name = dn then some 0 else (findDebuggerIdx dn rest).map (· + 1)

/-- TerminatingReconciler.cleanupEphemeralContainer (the ephemeral-container
removal variant): locate the entry named debugger-UID and splice it out via
`append(ecs[:i], ecs[i+1:]...)`. -/
def cleanupEphemeralContainer (s : DebugSession) (pod : Pod) :
    Except String (List EphemeralContainer) :=
  let debuggerName := "debugger-" ++ s.uid
  match findDebuggerIdx debuggerName pod.ephemeralContainers with
  | none =>
    Except.error ("debugger container \x27" ++ debuggerName ++ "\x27 not found in pod \x27"
      ++ pod.name ++ "\x27 during cleanup, the session has failed unexpectedly")
  | some i =>
    Except.ok (pod.ephemeralContainers.take i ++ pod.ephemeralContainers.drop (i + 1))

/-- The Terminating reconciler (TerminatingReconciler.Reconcile): run the
cleanup, then stamp terminationTime and transition to Completed. -/
def terminatingReconcile (s : DebugSession) (env : ReconcileEnv) :
    DebugSession × ReconcileOutcome :=
  match env.podFound with
  | none =>
    (UpdateSessionStatus s SessionPhase.failed
      ("target pod \x27" ++ s.spec.targetPodName ++ "\x27 not found, the session has failed"),
      ReconcileOutcome.done)
  | some pod =>
    match cleanupEphemeralContainer s pod with
    | Except.error e =>
      (UpdateSessionStatus s SessionPhase.failed e, ReconcileOutcome.done)
    | Except.ok _ =>
      (UpdateSessionStatus
        { s with status := { s.status with terminationTime := some env.now } }
        SessionPhase.completed "Termination Completed", ReconcileOutcome.done)

/-- The Completed reconciler (CompletedReconciler.Reconcile): records the
final message and performs no transition. -/
def completedReconcile (s : DebugSession) : DebugSession × ReconcileOutcome :=
  ({ s with status := { s.status with message := "Session Completed." } },
    ReconcileOutcome.done)

/-- The Failed reconciler (FailedReconciler.Reconcile): a pure no-op. -/
def failedReconcile (s : DebugSession) : DebugSession × ReconcileOutcome :=
  (s, ReconcileOutcome.done)

/-- The dispatcher (DebugSessionReconciler.Reconcile): select the reconciler
registered for the session's current phase ("" is registered to Pending). -/
def reconcileStep (s : DebugSession) (env : ReconcileEnv) :
    DebugSession × ReconcileOutcome :=
  match s.status.phase with
  | SessionPhase.unset => pendingReconcile s env
  | SessionPhase.pending => pendingReconcile s env
  | SessionPhase.injecting => injectingReconcile s env
  | SessionPhase.active => activeReconcile s env
  | SessionPhase.retrying => retryingReconcile s env
  | SessionPhase.terminating => terminatingReconcile s env
  | SessionPhase.completed => completedReconcile s
  | SessionPhase.failed => failedReconcile s

/-- A freshly admitted DebugSession: empty phase, zeroed controller-owned
status. -/
def initialSession (ns name uid : String) (spec : DebugSessionSpec) : DebugSession :=
  { ns := ns, name := name, uid := uid, spec := spec,
    status :=
      { phase := SessionPhase.unset, message := "", terminationTime := none,
        debuggingContainerName := "", readyForAttach := false, oneTimeToken := "",
        retryCount := 0 } }

/-- Session states reachable by any sequence of reconcile steps under
arbitrary environments. -/
inductive Reachable : DebugSession → Prop
  | init (ns name uid : String) (spec : DebugSessionSpec) :
      Reachable (initialSession ns name uid spec)
  | step (s : DebugSession) (env : ReconcileEnv) :
      Reachable s → Reachable (reconcileStep s env).1

/-! ## Attach proxy (internal/proxy/server.go) -/

/-- strings.Split(s, " ") — split around every single space, keeping empty
fields, via an accumulator over the character list. -/
def splitSpAux : List Char → List Char → List (List Char)
  | [], acc => [acc.reverse]
  | c :: rest, acc =>
    if c = ' ' then acc.reverse :: splitSpAux rest []
    else splitSpAux rest (c :: acc)

/-- strings.Split(authHeader, " ") as used by ServeHTTP. -/
def goSplitSpace (s : String) : List String :=
  (splitSpAux s.data []).map String.mk

/-- ASCII lowering of a character (the EqualFold comparison in the source
only ever meets ASCII scheme names). -/
def asciiLowerChar (c : Char) : Char :=
  if 'A' ≤ c ∧ c ≤ 'Z' then Char.ofNat (c.toNat + 32) else c

/-- ASCII lowering of a string, modelling strings.EqualFold against the
fixed ASCII word "bearer". -/
def asciiLower (s : String) : String := String.mk (s.data.map asciiLowerChar)

/-- strings.HasPrefix over character lists. -/
def listHasPre : List Char → List Char → Bool
  | _, [] => true
  | [], _ :: _ => false
  | c :: cs, p :: ps => if c = p then listHasPre cs ps else false

/-- strings.TrimPrefix: drop the leading `pre` when present, otherwise return
the string unchanged. -/
def goTrimPre (s pre : String) : String :=
  if listHasPre s.data pre.data then String.mk (s.data.drop pre.data.length) else s

/-- The session lookup loop of ServeHTTP: the first listed session whose UID
matches. -/
def findSessionByUID (uid : String) : List DebugSession → Option DebugSession
  | [] => none
  | sess :: rest => if sess.uid = uid then some sess else findSessionByUID uid rest

/-- The response ServeHTTP produces before (or instead of) streaming. -/
inductive HttpResponse where
  | badRequest (msg : String)
  | unauthorized (msg : String)
  | notFound (msg : String)
  | internalError
  | upgraded
  deriving DecidableEq

/-- The query parameters and Authorization header of a GET /attach request. -/
structure AttachRequest where
  ns : String
  pod : String
  container : String
  authHeader : String
  deriving DecidableEq

/-- Server.ServeHTTP from internal/proxy/server.go: parameter check, bearer
scheme check, session lookup by the UID derived from the container name, then
the readyForAttach/oneTimeToken gate.  `listResult` is none when listing the
DebugSession resources fails. -/
def ServeHTTP (req : AttachRequest) (listResult : Option (List DebugSession)) :
    HttpResponse :=
  if req.ns = "" ∨ req.pod = "" ∨ req.container = "" then
    HttpResponse.badRequest "Missing required query parameters: ns, pod, container"
  else
    match goSplitSpace req.authHeader with
    | [scheme, receivedToken] =>
      if asciiLower scheme = "bearer" then
        let sessionUID := goTrimPre req.container "debugger-"
        match listResult with
        | none => HttpResponse.internalError
        | some items =>
          match findSessionByUID sessionUID items with
          | none => HttpResponse.notFound "Debug session not found"
          | some debugSession =>
            if ¬ debugSession.status.readyForAttach ∨
                debugSession.status.oneTimeToken ≠ receivedToken then
              HttpResponse.unauthorized "Unauthorized: Invalid or expired token"
            else
              HttpResponse.upgraded
      else
        HttpResponse.unauthorized
          "Invalid or missing Authorization header. Expected \x27Bearer <token>\x27."
    | _ =>
      HttpResponse.unauthorized
        "Invalid or missing Authorization header. Expected \x27Bearer <token>\x27."

/-- The bearer token a request presents, when its Authorization header parses
(exactly two space-separated fields whose first is the bearer scheme,
case-insensitively). -/
def bearerToken (authHeader : String) : Option String :=
  match goSplitSpace authHeader with
  | [scheme, tok] => if asciiLower scheme = "bearer" then some tok else none
  | _ => none

/-! ## Channel framing (Server.stream, the channel-framing variant) -/

/-- Client to container: each inbound WebSocket frame payload is written to
the attach stdin pipe as `append([]byte\x7b0\x7d, payload...)`. -/
def streamInboundFrame (payload : List Nat) : List Nat := 0 :: payload

/-- Container to client: for each chunk read from the stdout/stderr pipe the
goroutine executes `if n > 0 \x7b ws.WriteMessage(BinaryMessage, buf[1:n]) \x7d`,
i.e. it emits one binary frame holding the chunk minus its first byte, and
emits nothing for an empty read. -/
def streamOutboundChunk (chunk : List Nat) : Option (List Nat) :=
  if 0 < chunk.length then some (chunk.drop 1) else none

/-- The stdin pipe contents produced by a sequence of inbound frames. -/
def inboundPipeBytes : List (List Nat) → List Nat
  | [] => []
  | f :: rest => streamInboundFrame f ++ inboundPipeBytes rest

/-- The binary frames sent to the client for a sequence of pipe chunks. -/
def outboundFrames : List (List Nat) → List (List Nat)
  | [] => []
  | c :: rest =>
    match streamOutboundChunk c with
    | some fr => fr :: outboundFrames rest
    | none => outboundFrames rest

/-! ## Theorems -/

/-- The action the claim's mapping table assigns to a Waiting reason:
ContainerCreating waits, the six recoverable reasons retry, the three
unrecoverable reasons and every unknown reason fail. -/
def claimWaitingAction (r : String) : ReasonAction :=
  if r = "ContainerCreating" then ReasonAction.wait
  else if r = "ImagePullBackOff" ∨ r = "RegistryUnavailable" ∨ r = "CrashLoopBackOff" ∨
      r = "CreateContainerError" ∨ r = "RunContainerError" ∨ r = "NetworkPluginNotReady" then
    ReasonAction.retry
  else ReasonAction.fail

/-- The action the claim's mapping table assigns to a Terminated reason:
Completed succeeds; Error, OOMKilled, ContainerCannotRun, DeadlineExceeded and
every unknown reason fail. -/
def claimTerminatedAction (r : String) : ReasonAction :=
  if r = "Completed" then ReasonAction.succeed else ReasonAction.fail

/-- The full classification table as the claim states it: Running, no
sub-state, or Waiting/ContainerCreating wait; the Waiting and Terminated
tables as above. -/
def claimAction (cs : ContainerStatus) : ReasonAction :=
  if cs.state.running then ReasonAction.wait
  else
    match cs.state.waiting with
    | some r => claimWaitingAction r
    | none =>
      match cs.state.terminated with
      | some r => claimTerminatedAction r
      | none => ReasonAction.wait

theorem waitingAction_eq (r : String) :
    (match waitingReasonMap r with
      | some a => a
      | none => ReasonAction.fail) = claimWaitingAction r := by
  simp only [waitingReasonMap, claimWaitingAction]
  split_ifs <;> simp_all

theorem terminatedAction_eq (r : String) :
    (match terminatedReasonMap r with
      | some a => a
      | none => ReasonAction.fail) = claimTerminatedAction r := by
  simp only [terminatedReasonMap, claimTerminatedAction]
  split_ifs <;> simp_all

/-- C4: for every container-status observation, the reason classifier returns
Wait when the container is Running, has no sub-state, or is Waiting with
reason ContainerCreating; Retry for the six recoverable waiting reasons; Fail
for the three unrecoverable waiting reasons and any unknown waiting reason;
Succeed for Terminated/Completed; and Fail for the four fatal terminated
reasons and any unknown terminated reason. -/
theorem c4_reason_classifier_table (cs : ContainerStatus) :
    (AnalyzeContainerStatus cs).1 = claimAction cs := by
  rcases cs with ⟨nm, ⟨run, waiting, term⟩⟩
  cases run with
  | true => rfl
  | false =>
    cases waiting with
    | some r =>
      simp only [AnalyzeContainerStatus, claimAction, Bool.false_eq_true, if_false]
      rw [← waitingAction_eq r]
      cases waitingReasonMap r <;> rfl
    | none =>
      cases term with
      | some r =>
        simp only [AnalyzeContainerStatus, claimAction, Bool.false_eq_true, if_false]
        rw [← terminatedAction_eq r]
        cases terminatedReasonMap r <;> rfl
      | none => rfl

/-- C3: the terminal phases are fixed points of their reconcilers.  The
Failed reconciler returns the session untouched with no requeue; the
Completed reconciler changes nothing but the message field, which it sets to
the constant final message, so it leaves the phase alone and re-running it is
idempotent. -/
theorem c3_terminal_phases_fixed_points (s : DebugSession) :
    failedReconcile s = (s, ReconcileOutcome.done)
    ∧ (completedReconcile s).1.status.phase = s.status.phase
    ∧ (completedReconcile s).1.status =
        { s.status with message := "Session Completed." }
    ∧ (completedReconcile s).2 = ReconcileOutcome.done
    ∧ completedReconcile (completedReconcile s).1 = completedReconcile s :=
  ⟨rfl, rfl, rfl, rfl, rfl⟩

/-- C8: the framing adapter prepends the stdin channel byte 0x00 to every
inbound frame payload before writing it to the attach stdin pipe, and for
every (non-empty) chunk arriving from the attach stdout/stderr pipe it strips
the leading channel byte and sends the remainder as a single binary frame;
composing the two is the identity on payloads. -/
theorem c8_channel_framing (payload chunk : List Nat) (h : chunk ≠ []) :
    inboundPipeBytes [payload] = 0 :: payload
    ∧ (∃ channelByte rest, chunk = channelByte :: rest ∧
        streamOutboundChunk chunk = some rest)
    ∧ streamOutboundChunk (streamInboundFrame payload) = some payload := by
  refine ⟨by simp [inboundPipeBytes, streamInboundFrame], ?_,
    by simp [streamOutboundChunk, streamInboundFrame]⟩
  cases chunk with
  | nil => exact absurd rfl h
  | cons c rest => exact ⟨c, rest, rfl, by simp [streamOutboundChunk]⟩

/-- C8 witness: framing a two-byte payload and stripping a three-byte chunk. -/
theorem c8_framing_witness :
    inboundPipeBytes [[108, 115]] = 0 :: [108, 115]
    ∧ (∃ channelByte rest, [1, 104, 105] = channelByte :: rest ∧
        streamOutboundChunk [1, 104, 105] = some rest)
    ∧ streamOutboundChunk (streamInboundFrame [108, 115]) = some [108, 115] :=
  c8_channel_framing [108, 115] [1, 104, 105] (by decide)

theorem findDebuggerIdx_append (dn : String) (inj : EphemeralContainer)
    (hinj : inj.name = dn) :
    ∀ orig : List EphemeralContainer, (∀ ec ∈ orig, ec.name ≠ dn) →
      findDebuggerIdx dn (orig ++ [inj]) = some orig.length := by
  intro orig
  induction orig with
  | nil => intro _; simp [findDebuggerIdx, hinj]
  | cons ec rest ih =>
    intro h
    have hec : ec.name ≠ dn := h ec (List.mem_cons_self ec rest)
    have hrest := ih (fun e he => h e (List.mem_cons_of_mem ec he))
    simp [findDebuggerIdx, hec, hrest, Nat.add_comm]

/-- C2: when the Injecting reconciler has appended the debugger ephemeral
container to a pod whose list did not already carry that name, the
Terminating cleanup removes exactly that entry and returns the pod's original
ephemeral-container list unchanged and in order; the reconcile then leaves
the session Completed with terminationTime stamped and the final message. -/
theorem c2_terminating_removes_injected (s : DebugSession) (pod : Pod)
    (env : ReconcileEnv)
    (hfresh : ∀ ec ∈ pod.ephemeralContainers, ec.name ≠ "debugger-" ++ s.uid)
    (hpod : env.podFound = some (injectEphemeralContainers s pod)) :
    cleanupEphemeralContainer s (injectEphemeralContainers s pod) =
      Except.ok pod.ephemeralContainers
    ∧ (terminatingReconcile s env).1.status.phase = SessionPhase.completed
    ∧ (terminatingReconcile s env).1.status.terminationTime = some env.now
    ∧ (terminatingReconcile s env).1.status.message = "Termination Completed"
    ∧ (terminatingReconcile s env).2 = ReconcileOutcome.done := by
  have hname : (mkDebugEphemeralContainer s).name = "debugger-" ++ s.uid := rfl
  have hidx :=
    findDebuggerIdx_append ("debugger-" ++ s.uid) (mkDebugEphemeralContainer s) hname
      pod.ephemeralContainers hfresh
  have hclean : cleanupEphemeralContainer s (injectEphemeralContainers s pod) =
      Except.ok pod.ephemeralContainers := by
    simp only [cleanupEphemeralContainer, injectEphemeralContainers, hidx]
    rw [List.take_left, List.drop_append 1]
    simp
  refine ⟨hclean, ?_⟩
  simp only [terminatingReconcile, hpod, hclean]
  trivial

/-- A concrete session used by witnesses: phase Active with a set token. -/
def sessActiveW : DebugSession :=
  { ns := "app", name := "dbg-sess", uid := "u1",
    spec :=
      { targetPodName := "web-1", targetContainerName := "web",
        targetNamespace := "app", debuggerImage := "busybox", ttl := 60,
        maxRetryCount := 3, debugSecurity := none },
    status :=
      { phase := SessionPhase.active, message := "", terminationTime := none,
        debuggingContainerName := "debugger-u1", readyForAttach := true,
        oneTimeToken := "tok1", retryCount := 0 } }

/-- A concrete pod with one pre-existing ephemeral container, used by the C2
witness. -/
def podW : Pod :=
  { name := "web-1", ns := "app", phase := "Running",
    shareProcessNamespace := true, containers := ["web"],
    ephemeralContainers :=
      [{ name := "other-ec", image := "alpine", command := [], args := [],
         stdin := false, tty := false, env := [], targetContainerName := "web",
         securityContext := buildSecurityContext none }],
    ephemeralContainerStatuses := [] }

/-- A concrete environment for the C2 witness: the pod as it looks after
Injecting appended the debugger container. -/
def envC2 : ReconcileEnv :=
  { nsExists := true,
    podFound := some (injectEphemeralContainers sessActiveW podW),
    proxyInfo := Except.ok ("10.0.0.1", "30080"), randBytes := [],
    bastionEnv := "", ecUpdateErr := none, now := 1700000000 }

/-- C2 witness: the inject-then-cleanup round trip at a concrete pod with one
other ephemeral container. -/
theorem c2_roundtrip_witness :
    cleanupEphemeralContainer sessActiveW (injectEphemeralContainers sessActiveW podW) =
      Except.ok podW.ephemeralContainers
    ∧ (terminatingReconcile sessActiveW envC2).1.status.phase = SessionPhase.completed
    ∧ (terminatingReconcile sessActiveW envC2).1.status.terminationTime = some envC2.now
    ∧ (terminatingReconcile sessActiveW envC2).1.status.message = "Termination Completed"
    ∧ (terminatingReconcile sessActiveW envC2).2 = ReconcileOutcome.done :=
  c2_terminating_removes_injected sessActiveW podW envC2 (by decide) rfl

theorem bearerToken_eq_some (authHeader scheme tok : String)
    (hsp : goSplitSpace authHeader = [scheme, tok])
    (hb : asciiLower scheme = "bearer") :
    bearerToken authHeader = some tok := by
  simp [bearerToken, hsp, hb]

theorem ServeHTTP_reduce_two (req : AttachRequest) (items : List DebugSession)
    (scheme tok : String)
    (h1 : ¬(req.ns = "" ∨ req.pod = "" ∨ req.container = ""))
    (hsp : goSplitSpace req.authHeader = [scheme, tok])
    (hb : asciiLower scheme = "bearer") :
    ServeHTTP req (some items) =
      match findSessionByUID (goTrimPre req.container "debugger-") items with
      | none => HttpResponse.notFound "Debug session not found"
      | some sess =>
        if ¬ sess.status.readyForAttach ∨ sess.status.oneTimeToken ≠ tok then
          HttpResponse.unauthorized "Unauthorized: Invalid or expired token"
        else HttpResponse.upgraded := by
  simp only [ServeHTTP, if_neg h1, hsp, if_pos hb]

/-- C1: the attach proxy upgrades a request exactly when the query parameters
are present, the Authorization header parses as a bearer token, the session
located by the UID derived from the container parameter exists, is
readyForAttach and its oneTimeToken equals the presented token; and every
request that locates a session but presents a different token is rejected
with 401, whatever the container-name argument was. -/
theorem c1_attach_upgrade_iff_authorized (req : AttachRequest)
    (items : List DebugSession) :
    (ServeHTTP req (some items) = HttpResponse.upgraded ↔
      (req.ns ≠ "" ∧ req.pod ≠ "" ∧ req.container ≠ "" ∧
       ∃ tok sess,
         bearerToken req.authHeader = some tok ∧
         findSessionByUID (goTrimPre req.container "debugger-") items = some sess ∧
         sess.status.readyForAttach = true ∧
         sess.status.oneTimeToken = tok))
    ∧ (∀ tok sess,
        req.ns ≠ "" → req.pod ≠ "" → req.container ≠ "" →
        bearerToken req.authHeader = some tok →
        findSessionByUID (goTrimPre req.container "debugger-") items = some sess →
        sess.status.oneTimeToken ≠ tok →
        ServeHTTP req (some items) =
          HttpResponse.unauthorized "Unauthorized: Invalid or expired token") := by
  by_cases h1 : req.ns = "" ∨ req.pod = "" ∨ req.container = ""
  · constructor
    · rw [show ServeHTTP req (some items) =
          HttpResponse.badRequest "Missing required query parameters: ns, pod, container"
          from by simp only [ServeHTTP, if_pos h1]]
      constructor
      · intro h; exact absurd h (by simp)
      · rintro ⟨hn, hp, hc, -⟩
        rcases h1 with h | h | h <;> simp_all
    · intro tok sess hn hp hc _ _ _
      rcases h1 with h | h | h <;> simp_all
  · push_neg at h1
    obtain ⟨hn, hp, hc⟩ := h1
    have h1' : ¬(req.ns = "" ∨ req.pod = "" ∨ req.container = "") := by
      simp [hn, hp, hc]
    cases hsp : goSplitSpace req.authHeader with
    | nil =>
      have hbt : bearerToken req.authHeader = none := by simp [bearerToken, hsp]
      have hresp : ServeHTTP req (some items) =
          HttpResponse.unauthorized
            "Invalid or missing Authorization header. Expected \x27Bearer <token>\x27." := by
        simp only [ServeHTTP, if_neg h1', hsp]
      constructor
      · rw [hresp]
        constructor
        · intro h; exact absurd h (by simp)
        · rintro ⟨-, -, -, tok, sess, htok, -⟩; simp [hbt] at htok
      · intro tok sess _ _ _ htok _ _; simp [hbt] at htok
    | cons scheme rest =>
      cases rest with
      | nil =>
        have hbt : bearerToken req.authHeader = none := by simp [bearerToken, hsp]
        have hresp : ServeHTTP req (some items) =
            HttpResponse.unauthorized
              "Invalid or missing Authorization header. Expected \x27Bearer <token>\x27." := by
          simp only [ServeHTTP, if_neg h1', hsp]
        constructor
        · rw [hresp]
          constructor
          · intro h; exact absurd h (by simp)
          · rintro ⟨-, -, -, tok, sess, htok, -⟩; simp [hbt] at htok
        · intro tok sess _ _ _ htok _ _; simp [hbt] at htok
      | cons tok2 rest2 =>
        cases rest2 with
        | cons x xs =>
          have hbt : bearerToken req.authHeader = none := by simp [bearerToken, hsp]
          have hresp : ServeHTTP req (some items) =
              HttpResponse.unauthorized
                "Invalid or missing Authorization header. Expected \x27Bearer <token>\x27." := by
            simp only [ServeHTTP, if_neg h1', hsp]
          constructor
          · rw [hresp]
            constructor
            · intro h; exact absurd h (by simp)
            · rintro ⟨-, -, -, tok, sess, htok, -⟩; simp [hbt] at htok
          · intro tok sess _ _ _ htok _ _; simp [hbt] at htok
        | nil =>
          by_cases hb : asciiLower scheme = "bearer"
          · have hbt : bearerToken req.authHeader = some tok2 :=
              bearerToken_eq_some req.authHeader scheme tok2 hsp hb
            have hred := ServeHTTP_reduce_two req items scheme tok2 h1' hsp hb
            cases hf : findSessionByUID (goTrimPre req.container "debugger-") items with
            | none =>
              rw [hf] at hred
              have hresp : ServeHTTP req (some items) =
                  HttpResponse.notFound "Debug session not found" := hred
              constructor
              · rw [hresp]
                constructor
                · intro h; exact absurd h (by simp)
                · rintro ⟨-, -, -, tok, sess, htok, hfind, -⟩
                  cases hfind
              · intro tok sess _ _ _ _ hfind _
                cases hfind
            | some sess =>
              rw [hf] at hred
              have hred2 : ServeHTTP req (some items) =
                  (if ¬ sess.status.readyForAttach ∨ sess.status.oneTimeToken ≠ tok2 then
                    HttpResponse.unauthorized "Unauthorized: Invalid or expired token"
                  else HttpResponse.upgraded) := hred
              by_cases hauth : ¬ sess.status.readyForAttach ∨
                  sess.status.oneTimeToken ≠ tok2
              · rw [if_pos hauth] at hred2
                constructor
                · rw [hred2]
                  constructor
                  · intro h; exact absurd h (by simp)
                  · rintro ⟨-, -, -, tok, sess', htok, hfind, hready, htokeq⟩
                    rw [hbt] at htok
                    injection htok with htok
                    injection hfind with hfind
                    subst hfind; subst htok
                    rcases hauth with hnr | hne
                    · exact (hnr (by simp [hready])).elim
                    · exact (hne htokeq).elim
                · intro tok sess' _ _ _ _ _ _; exact hred2
              · rw [if_neg hauth] at hred2
                push_neg at hauth
                obtain ⟨hready, htokeq⟩ := hauth
                constructor
                · rw [hred2]
                  constructor
                  · intro _
                    exact ⟨hn, hp, hc, tok2, sess, hbt, rfl,
                      by simpa using hready, htokeq⟩
                  · intro _; rfl
                · intro tok sess' _ _ _ htok hfind hne
                  rw [hbt] at htok; injection htok with htok
                  injection hfind with hfind
                  subst hfind; subst htok
                  exact absurd htokeq hne
          · have hbt : bearerToken req.authHeader = none := by
              simp [bearerToken, hsp, hb]
            have hresp : ServeHTTP req (some items) =
                HttpResponse.unauthorized
                  "Invalid or missing Authorization header. Expected \x27Bearer <token>\x27." := by
              simp only [ServeHTTP, if_neg h1', hsp, if_neg hb]
            constructor
            · rw [hresp]
              constructor
              · intro h; exact absurd h (by simp)
              · rintro ⟨-, -, -, tok, sess, htok, -⟩; simp [hbt] at htok
            · intro tok sess _ _ _ htok _ _; simp [hbt] at htok

/-- C1 witness: a request for the right container name but a wrong bearer
token against a ready session is rejected with 401. -/
theorem c1_attach_witness :
    ServeHTTP
      { ns := "app", pod := "web-1", container := "debugger-u1",
        authHeader := "Bearer wrong" } (some [sessActiveW]) =
      HttpResponse.unauthorized "Unauthorized: Invalid or expired token" :=
  (c1_attach_upgrade_iff_authorized
      { ns := "app", pod := "web-1", container := "debugger-u1",
        authHeader := "Bearer wrong" } [sessActiveW]).2
    "wrong" sessActiveW (by decide) (by decide) (by decide) (by decide)
    (by decide) (by decide)

theorem bearerToken_some_inv (h tok : String)
    (htok : bearerToken h = some tok) :
    ∃ scheme, goSplitSpace h = [scheme, tok] ∧ asciiLower scheme = "bearer" := by
  rcases hsp : goSplitSpace h with _ | ⟨a, _ | ⟨b, _ | ⟨c, rest⟩⟩⟩ <;>
    simp only [bearerToken, hsp] at htok
  · cases htok
  · cases htok
  · split_ifs at htok with hb
    injection htok with hbt
    exact ⟨a, by rw [hbt], hb⟩
  · cases htok

/-- C9: when the container query parameter is a session's bare UID — without
the literal debugger- marker — the strip of that marker leaves the string
unchanged, so the proxy still locates the session, and with readyForAttach
set and a matching bearer token it upgrades the connection even though the
container name is not of the debugger-UID form. -/
theorem c9_bare_uid_container_upgrades (req : AttachRequest)
    (sess : DebugSession) (tok : String)
    (hn : req.ns ≠ "") (hp : req.pod ≠ "")
    (hcont : req.container = sess.uid)
    (hne : sess.uid ≠ "")
    (hnopre : listHasPre sess.uid.data "debugger-".data = false)
    (htok : bearerToken req.authHeader = some tok)
    (hready : sess.status.readyForAttach = true)
    (honetok : sess.status.oneTimeToken = tok) :
    goTrimPre req.container "debugger-" = sess.uid
    ∧ ServeHTTP req (some [sess]) = HttpResponse.upgraded := by
  have htrim : goTrimPre req.container "debugger-" = sess.uid := by
    rw [hcont]; simp [goTrimPre, hnopre]
  obtain ⟨scheme, hsp, hb⟩ := bearerToken_some_inv req.authHeader tok htok
  have h1' : ¬(req.ns = "" ∨ req.pod = "" ∨ req.container = "") := by
    simp [hn, hp, hcont, hne]
  have hred := ServeHTTP_reduce_two req [sess] scheme tok h1' hsp hb
  rw [htrim] at hred
  have hfind : findSessionByUID sess.uid [sess] = some sess := by
    simp [findSessionByUID]
  rw [hfind] at hred
  have hred2 : ServeHTTP req (some [sess]) =
      (if ¬ sess.status.readyForAttach ∨ sess.status.oneTimeToken ≠ tok then
        HttpResponse.unauthorized "Unauthorized: Invalid or expired token"
      else HttpResponse.upgraded) := hred
  refine ⟨htrim, ?_⟩
  rw [hred2, if_neg ?_]
  simp [hready, honetok]

/-- C9 witness: the bare UID of the concrete ready session, with its real
token, upgrades. -/
theorem c9_bare_uid_witness :
    goTrimPre
      (AttachRequest.container
        { ns := "app", pod := "web-1", container := "u1",
          authHeader := "Bearer tok1" }) "debugger-" = sessActiveW.uid
    ∧ ServeHTTP
        { ns := "app", pod := "web-1", container := "u1",
          authHeader := "Bearer tok1" } (some [sessActiveW]) =
        HttpResponse.upgraded :=
  c9_bare_uid_container_upgrades
    { ns := "app", pod := "web-1", container := "u1", authHeader := "Bearer tok1" }
    sessActiveW "tok1" (by decide) (by decide) rfl (by decide) (by decide)
    (by decide) rfl rfl

/-- C5: in the Retrying phase, a Wait or Succeed classification resets
retryCount to 0 and transitions back to Active; Fail transitions to Failed
with the classified message; Retry at or above the budget fails with the
max-retries message; Retry below the budget increments retryCount, keeps the
phase, updates the message and schedules a re-reconcile after
min(60s, 5s * 2^(retryCount-1)) for the incremented count; and a vanished
debugger container fails the session. -/
theorem c5_retrying_transitions (s : DebugSession) (env : ReconcileEnv)
    (pod : Pod) (hpod : env.podFound = some pod) :
    (∀ cs, findContainerStatus ("debugger-" ++ s.uid)
        pod.ephemeralContainerStatuses = some cs →
      (((AnalyzeContainerStatus cs).1 = ReasonAction.wait ∨
        (AnalyzeContainerStatus cs).1 = ReasonAction.succeed) →
        retryingReconcile s env =
          (UpdateSessionStatus { s with status := { s.status with retryCount := 0 } }
            SessionPhase.active "Session is now active.", ReconcileOutcome.done))
      ∧ ((AnalyzeContainerStatus cs).1 = ReasonAction.fail →
        retryingReconcile s env =
          (UpdateSessionStatus s SessionPhase.failed (AnalyzeContainerStatus cs).2,
            ReconcileOutcome.done))
      ∧ ((AnalyzeContainerStatus cs).1 = ReasonAction.retry →
        (s.status.retryCount : Int) ≥ s.spec.maxRetryCount →
        retryingReconcile s env =
          (UpdateSessionStatus s SessionPhase.failed "Failed after max retries.",
            ReconcileOutcome.done))
      ∧ ((AnalyzeContainerStatus cs).1 = ReasonAction.retry →
        ¬ ((s.status.retryCount : Int) ≥ s.spec.maxRetryCount) →
        (retryingReconcile s env).1.status.retryCount = s.status.retryCount + 1
        ∧ (retryingReconcile s env).1.status.phase = s.status.phase
        ∧ (retryingReconcile s env).1.status.message =
            "Retrying... (" ++ toString (s.status.retryCount + 1) ++ "/" ++
              toString s.spec.maxRetryCount ++ "), Reason: " ++
              (AnalyzeContainerStatus cs).2
        ∧ (retryingReconcile s env).2 =
            ReconcileOutcome.requeueAfter
              (min 60 (5 * 2 ^ ((s.status.retryCount + 1) - 1)))))
    ∧ (findContainerStatus ("debugger-" ++ s.uid)
        pod.ephemeralContainerStatuses = none →
      retryingReconcile s env =
        (UpdateSessionStatus s SessionPhase.failed
          "Debugger container disappeared during retry.", ReconcileOutcome.done)) := by
  constructor
  · intro cs hfind
    have hred : retryingReconcile s env =
        (match (AnalyzeContainerStatus cs).1 with
          | ReasonAction.wait =>
            (UpdateSessionStatus { s with status := { s.status with retryCount := 0 } }
              SessionPhase.active "Session is now active.", ReconcileOutcome.done)
          | ReasonAction.succeed =>
            (UpdateSessionStatus { s with status := { s.status with retryCount := 0 } }
              SessionPhase.active "Session is now active.", ReconcileOutcome.done)
          | ReasonAction.fail =>
            (UpdateSessionStatus s SessionPhase.failed (AnalyzeContainerStatus cs).2,
              ReconcileOutcome.done)
          | ReasonAction.retry => retryingHandleRetry s (AnalyzeContainerStatus cs).2) := by
      simp only [retryingReconcile, hpod, hfind]
    refine ⟨?_, ?_, ?_, ?_⟩
    · rintro (ha | ha) <;> rw [hred, ha]
    · intro ha; rw [hred, ha]
    · intro ha hge
      rw [hred, ha]
      simp only [retryingHandleRetry, if_pos hge]
    · intro ha hlt
      rw [hred, ha]
      simp only [retryingHandleRetry, if_neg hlt]
      refine ⟨trivial, trivial, trivial, ?_⟩
      have harith : (if 5 * 2 ^ (s.status.retryCount + 1 - 1) > 60 then 60
          else 5 * 2 ^ (s.status.retryCount + 1 - 1)) =
          min 60 (5 * 2 ^ (s.status.retryCount + 1 - 1)) := by
        generalize 5 * 2 ^ (s.status.retryCount + 1 - 1) = raw
        split_ifs <;> omega
      rw [harith]
  · intro hnone
    simp only [retryingReconcile, hpod, hnone]

/-- A concrete session in the Retrying phase, retryCount 0, budget 3. -/
def sessRetryW : DebugSession :=
  { sessActiveW with status :=
      { sessActiveW.status with
          phase := SessionPhase.retrying,
          readyForAttach := false,
          retryCount := 0 } }

/-- A concrete pod whose debugger container sits in ImagePullBackOff. -/
def podRetryW : Pod :=
  { podW with ephemeralContainerStatuses :=
      [{ name := "debugger-u1",
         state := { running := false, waiting := some "ImagePullBackOff",
                    terminated := none } }] }

/-- A concrete environment delivering that pod. -/
def envRetryW : ReconcileEnv :=
  { nsExists := true, podFound := some podRetryW,
    proxyInfo := Except.ok ("10.0.0.1", "30080"), randBytes := [],
    bastionEnv := "", ecUpdateErr := none, now := 0 }

/-- C5 witness: one Retry classification below the budget increments the
count from 0 to 1 and requeues after min(60, 5*2^0) seconds. -/
theorem c5_retrying_witness :
    (retryingReconcile sessRetryW envRetryW).1.status.retryCount =
      sessRetryW.status.retryCount + 1
    ∧ (retryingReconcile sessRetryW envRetryW).1.status.phase =
        sessRetryW.status.phase
    ∧ (retryingReconcile sessRetryW envRetryW).1.status.message =
        "Retrying... (" ++ toString (sessRetryW.status.retryCount + 1) ++ "/" ++
          toString sessRetryW.spec.maxRetryCount ++ "), Reason: " ++
          (AnalyzeContainerStatus
            { name := "debugger-u1",
              state := { running := false, waiting := some "ImagePullBackOff",
                         terminated := none } }).2
    ∧ (retryingReconcile sessRetryW envRetryW).2 =
        ReconcileOutcome.requeueAfter
          (min 60 (5 * 2 ^ ((sessRetryW.status.retryCount + 1) - 1))) :=
  (((c5_retrying_transitions sessRetryW envRetryW podRetryW rfl).1
      { name := "debugger-u1",
        state := { running := false, waiting := some "ImagePullBackOff",
                   terminated := none } }
      (by decide)).2.2.2) (by decide) (by decide)

theorem reconcileStep_spec_eq (s : DebugSession) (env : ReconcileEnv) :
    (reconcileStep s env).1.spec = s.spec := by
  unfold reconcileStep pendingReconcile injectingReconcile activeReconcile
    retryingReconcile retryingHandleRetry terminatingReconcile completedReconcile
    failedReconcile
  repeat' (split <;> (try dsimp only))
  all_goals rfl

theorem reconcileStep_retryCount_cases (s : DebugSession) (env : ReconcileEnv) :
    (reconcileStep s env).1.status.retryCount = s.status.retryCount
    ∨ (reconcileStep s env).1.status.retryCount = 0
    ∨ (reconcileStep s env).1.status.retryCount = 1
    ∨ ((reconcileStep s env).1.status.retryCount = s.status.retryCount + 1
       ∧ ¬ ((s.status.retryCount : Int) ≥ s.spec.maxRetryCount)) := by
  unfold reconcileStep pendingReconcile injectingReconcile activeReconcile
    retryingReconcile retryingHandleRetry terminatingReconcile completedReconcile
    failedReconcile
  repeat' (split <;> (try dsimp only))
  all_goals first
    | exact Or.inl rfl
    | exact Or.inr (Or.inl rfl)
    | exact Or.inr (Or.inr (Or.inl rfl))
    | exact Or.inr (Or.inr (Or.inr ⟨rfl, by assumption⟩))

/-- C6 (amended): on every reachable session state whose spec has
maxRetryCount at least 1, retryCount stays at or below maxRetryCount. -/
theorem c6_retry_invariant_amended (s : DebugSession) (h : Reachable s)
    (hmax : 1 ≤ s.spec.maxRetryCount) :
    (s.status.retryCount : Int) ≤ s.spec.maxRetryCount := by
  suffices h' : 1 ≤ s.spec.maxRetryCount →
      (s.status.retryCount : Int) ≤ s.spec.maxRetryCount from h' hmax
  clear hmax
  induction h with
  | init ns name uid spec =>
    intro hm
    simp only [initialSession] at hm ⊢
    push_cast
    omega
  | step s' env hs ih =>
    intro hm
    have hspec := reconcileStep_spec_eq s' env
    rw [hspec] at hm ⊢
    rcases reconcileStep_retryCount_cases s' env with h0 | h0 | h0 | ⟨h0, hguard⟩ <;>
      rw [h0]
    · exact ih hm
    · omega
    · omega
    · push_cast
      omega

/-- The spec of the counterexample session: maxRetryCount 0. -/
def specCE : DebugSessionSpec :=
  { targetPodName := "web-1", targetContainerName := "web",
    targetNamespace := "app", debuggerImage := "busybox", ttl := 60,
    maxRetryCount := 0, debugSecurity := none }

/-- The freshly created counterexample session. -/
def sessCE0 : DebugSession := initialSession "app" "dbg" "uce" specCE

/-- A healthy running target pod without the debugger injected yet. -/
def podRunningCE : Pod :=
  { name := "web-1", ns := "app", phase := "Running",
    shareProcessNamespace := true, containers := ["web"],
    ephemeralContainers := [], ephemeralContainerStatuses := [] }

/-- A benign environment: namespace and pod exist, proxy info resolves,
ephemeral-container update succeeds. -/
def envOkCE : ReconcileEnv :=
  { nsExists := true, podFound := some podRunningCE,
    proxyInfo := Except.ok ("10.0.0.1", "30080"),
    randBytes := List.replicate 32 0, bastionEnv := "", ecUpdateErr := none,
    now := 0 }

/-- The pod as observed once the injected debugger sits in ImagePullBackOff. -/
def podBackoffCE : Pod :=
  { podRunningCE with ephemeralContainerStatuses :=
      [{ name := "debugger-uce",
         state := { running := false, waiting := some "ImagePullBackOff",
                    terminated := none } }] }

/-- The environment delivering the back-off observation. -/
def envBackoffCE : ReconcileEnv := { envOkCE with podFound := some podBackoffCE }

/-- The counterexample run: create, validate, inject, then observe the
image-pull back-off in the Active phase. -/
def sessCE1 : DebugSession := (reconcileStep sessCE0 envOkCE).1

def sessCE2 : DebugSession := (reconcileStep sessCE1 envOkCE).1

def sessCE3 : DebugSession := (reconcileStep sessCE2 envOkCE).1

def sessCE4 : DebugSession := (reconcileStep sessCE3 envBackoffCE).1

/-- C6 counterexample: a reachable state with maxRetryCount 0 whose
retryCount is 1 — the Active reconciler's Retry handler sets retryCount to 1
unconditionally, so `retryCount ≤ maxRetryCount` does not hold at all times. -/
theorem c6_retry_invariant_counterexample :
    Reachable sessCE4
    ∧ sessCE4.spec.maxRetryCount = 0
    ∧ sessCE4.status.retryCount = 1
    ∧ ¬ ((sessCE4.status.retryCount : Int) ≤ sessCE4.spec.maxRetryCount) := by
  refine ⟨?_, by decide, by decide, by decide⟩
  exact Reachable.step sessCE3 envBackoffCE
    (Reachable.step sessCE2 envOkCE
      (Reachable.step sessCE1 envOkCE
        (Reachable.step sessCE0 envOkCE
          (Reachable.init "app" "dbg" "uce" specCE))))

/-- C6 witness (for the amended invariant): a freshly created session with
the default budget of 3 satisfies the bound. -/
theorem c6_retry_invariant_witness :
    ((initialSession "app" "dbg" "u1" sessActiveW.spec).status.retryCount : Int) ≤
      (initialSession "app" "dbg" "u1" sessActiveW.spec).spec.maxRetryCount :=
  c6_retry_invariant_amended (initialSession "app" "dbg" "u1" sessActiveW.spec)
    (Reachable.init "app" "dbg" "u1" sessActiveW.spec) (by decide)

/-- Whether a phase lies strictly after Injecting in the lifecycle. -/
def isPostInjecting (p : SessionPhase) : Bool :=
  match p with
  | SessionPhase.active => true
  | SessionPhase.retrying => true
  | SessionPhase.terminating => true
  | SessionPhase.completed => true
  | SessionPhase.failed => true
  | _ => false

/-- A lowercase hex digit test. -/
def isHexDigitChar (c : Char) : Bool := hexDigits.contains c

theorem hexEncode_length (bytes : List Nat) :
    (hexEncode bytes).length = 2 * bytes.length := by
  induction bytes with
  | nil => rfl
  | cons b rest ih =>
    show (String.mk [hexDigit (b / 16), hexDigit (b % 16)] ++ hexEncode rest).length = _
    rw [String.length_append]
    simp only [ih]
    simp [String.length]
    omega

theorem hexDigit_mem (n : Nat) (h : n < 16) : isHexDigitChar (hexDigit n) = true := by
  interval_cases n <;> decide

theorem hexEncode_chars (bytes : List Nat) (hb : ∀ b ∈ bytes, b < 256) :
    ∀ c ∈ (hexEncode bytes).data, isHexDigitChar c = true := by
  induction bytes with
  | nil => intro c hc; simp [hexEncode] at hc
  | cons b rest ih =>
    intro c hc
    have hc' : c ∈ [hexDigit (b / 16), hexDigit (b % 16)] ++ (hexEncode rest).data := hc
    rcases List.mem_append.mp hc' with h1 | h2
    · have hb256 : b < 256 := hb b (List.mem_cons_self _ _)
      have hdiv : b / 16 < 16 := by omega
      have hmod : b % 16 < 16 := by omega
      rcases List.mem_cons.mp h1 with h3 | h3
      · rw [h3]; exact hexDigit_mem _ hdiv
      · rcases List.mem_cons.mp h3 with h4 | h4
        · rw [h4]; exact hexDigit_mem _ hmod
        · simp at h4
    · exact ih (fun x hx => hb x (List.mem_cons_of_mem _ hx)) c h2

theorem pendingReconcile_token (s : DebugSession) (env : ReconcileEnv) :
    (pendingReconcile s env).1.status.oneTimeToken = s.status.oneTimeToken := by
  unfold pendingReconcile
  repeat' (split <;> (try dsimp only))
  all_goals rfl

theorem activeReconcile_token (s : DebugSession) (env : ReconcileEnv) :
    (activeReconcile s env).1.status.oneTimeToken = s.status.oneTimeToken := by
  unfold activeReconcile
  repeat' (split <;> (try dsimp only))
  all_goals rfl

theorem retryingReconcile_token (s : DebugSession) (env : ReconcileEnv) :
    (retryingReconcile s env).1.status.oneTimeToken = s.status.oneTimeToken := by
  unfold retryingReconcile retryingHandleRetry
  repeat' (split <;> (try dsimp only))
  all_goals rfl

theorem terminatingReconcile_token (s : DebugSession) (env : ReconcileEnv) :
    (terminatingReconcile s env).1.status.oneTimeToken = s.status.oneTimeToken := by
  unfold terminatingReconcile
  repeat' (split <;> (try dsimp only))
  all_goals rfl

theorem injectingReconcile_token_cases (s : DebugSession) (env : ReconcileEnv) :
    (injectingReconcile s env).1.status.oneTimeToken = s.status.oneTimeToken
    ∨ (injectingReconcile s env).1.status.oneTimeToken =
        generateSecureToken env.randBytes := by
  unfold injectingReconcile
  repeat' (split <;> (try dsimp only))
  all_goals first
    | exact Or.inl rfl
    | exact Or.inr rfl

theorem injectingReconcile_phase_cases (s : DebugSession) (env : ReconcileEnv) :
    (injectingReconcile s env).1.status.phase = SessionPhase.active
    ∨ (injectingReconcile s env).1.status.phase = SessionPhase.failed := by
  unfold injectingReconcile
  repeat' (split <;> (try dsimp only))
  all_goals first
    | exact Or.inl rfl
    | exact Or.inr rfl

theorem activeReconcile_phase_cases (s : DebugSession) (env : ReconcileEnv) :
    (activeReconcile s env).1.status.phase = s.status.phase
    ∨ (activeReconcile s env).1.status.phase = SessionPhase.retrying
    ∨ (activeReconcile s env).1.status.phase = SessionPhase.terminating
    ∨ (activeReconcile s env).1.status.phase = SessionPhase.failed := by
  unfold activeReconcile
  repeat' (split <;> (try dsimp only))
  all_goals first
    | exact Or.inl rfl
    | exact Or.inr (Or.inl rfl)
    | exact Or.inr (Or.inr (Or.inl rfl))
    | exact Or.inr (Or.inr (Or.inr rfl))

theorem retryingReconcile_phase_cases (s : DebugSession) (env : ReconcileEnv) :
    (retryingReconcile s env).1.status.phase = s.status.phase
    ∨ (retryingReconcile s env).1.status.phase = SessionPhase.active
    ∨ (retryingReconcile s env).1.status.phase = SessionPhase.failed := by
  unfold retryingReconcile retryingHandleRetry
  repeat' (split <;> (try dsimp only))
  all_goals first
    | exact Or.inl rfl
    | exact Or.inr (Or.inl rfl)
    | exact Or.inr (Or.inr rfl)

theorem terminatingReconcile_phase_cases (s : DebugSession) (env : ReconcileEnv) :
    (terminatingReconcile s env).1.status.phase = SessionPhase.completed
    ∨ (terminatingReconcile s env).1.status.phase = SessionPhase.failed := by
  unfold terminatingReconcile
  repeat' (split <;> (try dsimp only))
  all_goals first
    | exact Or.inl rfl
    | exact Or.inr rfl

/-- C7: the one-time token is written only by the Injecting step — every
other phase's reconcile preserves it — and when Injecting writes it, the
value is the hex encoding of the 32 random bytes, hence a 64-character
lowercase-hex string; Injecting always exits to Active or Failed and the
post-Injecting phases are closed under reconciling, so the token is generated
at most once per session and never overwritten afterwards. -/
theorem c7_token_generated_once (s : DebugSession) (env : ReconcileEnv)
    (h32 : env.randBytes.length = 32)
    (hb : ∀ b ∈ env.randBytes, b < 256) :
    (s.status.phase ≠ SessionPhase.injecting →
      (reconcileStep s env).1.status.oneTimeToken = s.status.oneTimeToken)
    ∧ (s.status.phase = SessionPhase.injecting →
      ((reconcileStep s env).1.status.phase = SessionPhase.active ∨
        (reconcileStep s env).1.status.phase = SessionPhase.failed)
      ∧ ((reconcileStep s env).1.status.oneTimeToken = s.status.oneTimeToken ∨
        ((reconcileStep s env).1.status.oneTimeToken = generateSecureToken env.randBytes
          ∧ (generateSecureToken env.randBytes).length = 64
          ∧ ∀ c ∈ (generateSecureToken env.randBytes).data, isHexDigitChar c = true)))
    ∧ (isPostInjecting s.status.phase = true →
      isPostInjecting (reconcileStep s env).1.status.phase = true) := by
  have hlen : (generateSecureToken env.randBytes).length = 64 := by
    show (hexEncode env.randBytes).length = 64
    rw [hexEncode_length, h32]
  have hchars : ∀ c ∈ (generateSecureToken env.randBytes).data,
      isHexDigitChar c = true := hexEncode_chars env.randBytes hb
  refine ⟨?_, ?_, ?_⟩
  · intro hne
    unfold reconcileStep
    cases hph : s.status.phase
    · exact pendingReconcile_token s env
    · exact pendingReconcile_token s env
    · exact absurd hph hne
    · exact activeReconcile_token s env
    · exact retryingReconcile_token s env
    · exact terminatingReconcile_token s env
    · exact rfl
    · exact rfl
  · intro hph
    have hstep : reconcileStep s env = injectingReconcile s env := by
      unfold reconcileStep; rw [hph]
    rw [hstep]
    refine ⟨injectingReconcile_phase_cases s env, ?_⟩
    rcases injectingReconcile_token_cases s env with htok | htok
    · exact Or.inl htok
    · exact Or.inr ⟨htok, hlen, hchars⟩
  · intro hpost
    unfold reconcileStep
    cases hph : s.status.phase
    · rw [hph] at hpost; cases hpost
    · rw [hph] at hpost; cases hpost
    · rw [hph] at hpost; cases hpost
    · rcases activeReconcile_phase_cases s env with h0 | h0 | h0 | h0 <;> rw [h0]
      · rw [hph]; rfl
      · rfl
      · rfl
      · rfl
    · rcases retryingReconcile_phase_cases s env with h0 | h0 | h0 <;> rw [h0]
      · rw [hph]; rfl
      · rfl
      · rfl
    · rcases terminatingReconcile_phase_cases s env with h0 | h0 <;> rw [h0] <;> rfl
    · exact hpost
    · exact hpost

/-- An environment with 32 valid random bytes for the C7 witness. -/
def envTokenW : ReconcileEnv :=
  { nsExists := true, podFound := some podW,
    proxyInfo := Except.ok ("10.0.0.1", "30080"),
    randBytes := List.replicate 32 171, bastionEnv := "", ecUpdateErr := none,
    now := 0 }

/-- C7 witness: a reconcile of the concrete Active session leaves its token
untouched. -/
theorem c7_token_witness :
    (reconcileStep sessActiveW envTokenW).1.status.oneTimeToken =
      sessActiveW.status.oneTimeToken :=
  (c7_token_generated_once sessActiveW envTokenW (by decide) (by decide)).1
    (by decide)

end KubeDebugSess
